import Mathlib

/-!
Verification of the comparison/diff engine (`rpd/services/comparison_engine.py`)
against its specification.  The engine is embedded shallowly: Python dicts and
scalars become the `PyVal` universe, the pydantic models become Lean structures
with explicit `model_dump` functions, and every engine function is translated
into an executable Lean definition.
-/

set_option maxRecDepth 16384

namespace Rpd

/-- Apostrophe character, written via its code point. -/
def quoteChar : Char := Char.ofNat 39

/-- Opening curly brace character, written via its code point. -/
def lbraceChar : Char := Char.ofNat 123

/-- Closing curly brace character, written via its code point. -/
def rbraceChar : Char := Char.ofNat 125

/-- Universe of dumped Python values appearing in document trees: `None`,
booleans, ints, floats (as rationals), strings, datetimes (as their numeric
components), dicts (as ordered association lists) and lists. -/
inductive PyVal where
  | none
  | bool (b : Bool)
  | int (n : Int)
  | float (q : Rat)
  | str (s : String)
  | dt (parts : List Int)
  | dict (entries : List (String × PyVal))
  | list (items : List PyVal)

mutual

/-- Structural boolean equality on dumped values. -/
def pyBeq : PyVal → PyVal → Bool
  | PyVal.none, PyVal.none => true
  | PyVal.bool x, PyVal.bool y => x == y
  | PyVal.int x, PyVal.int y => x == y
  | PyVal.float x, PyVal.float y => x == y
  | PyVal.str x, PyVal.str y => x == y
  | PyVal.dt x, PyVal.dt y => x == y
  | PyVal.dict xs, PyVal.dict ys => entriesBeq xs ys
  | PyVal.list xs, PyVal.list ys => itemsBeq xs ys
  | _, _ => false
termination_by structural a => a

/-- Boolean equality on dict entry lists. -/
def entriesBeq : List (String × PyVal) → List (String × PyVal) → Bool
  | [], [] => true
  | (k, v) :: xs, (k2, v2) :: ys => k == k2 && pyBeq v v2 && entriesBeq xs ys
  | _, _ => false
termination_by structural a => a

/-- Boolean equality on value lists. -/
def itemsBeq : List PyVal → List PyVal → Bool
  | [], [] => true
  | v :: xs, v2 :: ys => pyBeq v v2 && itemsBeq xs ys
  | _, _ => false
termination_by structural a => a

end

mutual

/-- `pyBeq` decides equality. -/
theorem pyBeq_iff : ∀ a b : PyVal, pyBeq a b = true ↔ a = b
  | a, b => by
    cases a <;> cases b <;>
      simp only [pyBeq, Bool.and_eq_true, beq_iff_eq, reduceCtorEq,
        PyVal.bool.injEq, PyVal.int.injEq, PyVal.float.injEq, PyVal.str.injEq,
        PyVal.dt.injEq, PyVal.dict.injEq, PyVal.list.injEq] <;>
      first
        | rfl
        | simp
        | exact entriesBeq_iff _ _
        | exact itemsBeq_iff _ _

/-- `entriesBeq` decides equality. -/
theorem entriesBeq_iff : ∀ xs ys : List (String × PyVal),
    entriesBeq xs ys = true ↔ xs = ys
  | [], [] => by simp [entriesBeq]
  | [], _ :: _ => by simp [entriesBeq]
  | _ :: _, [] => by simp [entriesBeq]
  | (k, v) :: xs, (k2, v2) :: ys => by
    simp [entriesBeq, pyBeq_iff v v2, entriesBeq_iff xs ys, and_assoc]

/-- `itemsBeq` decides equality. -/
theorem itemsBeq_iff : ∀ xs ys : List PyVal,
    itemsBeq xs ys = true ↔ xs = ys
  | [], [] => by simp [itemsBeq]
  | [], _ :: _ => by simp [itemsBeq]
  | _ :: _, [] => by simp [itemsBeq]
  | v :: xs, v2 :: ys => by
    simp [itemsBeq, pyBeq_iff v v2, itemsBeq_iff xs ys]

end

instance : DecidableEq PyVal := fun a b => decidable_of_iff _ (pyBeq_iff a b)

/-- Join a list of character lists with a separator (Python `sep.join`). -/
def joinSep (sep : List Char) : List (List Char) → List Char
  | [] => []
  | [x] => x
  | x :: rest => x ++ sep ++ joinSep sep rest

mutual

/-- Python `repr` of a dumped value.  String escaping and numeric rendering are
approximated (the engine only ever inspects this text for the substrings
`x`, `y`, `width`, `height`, none of which numeric renderings can produce). -/
def pyReprL : PyVal → List Char
  | PyVal.none => "None".toList
  | PyVal.bool true => "True".toList
  | PyVal.bool false => "False".toList
  | PyVal.int n => (toString n).toList
  | PyVal.float q => (toString q).toList
  | PyVal.str s => quoteChar :: s.toList ++ [quoteChar]
  | PyVal.dt ps =>
      "datetime.datetime(".toList
        ++ joinSep [',', ' '] (ps.map (fun n => (toString n).toList)) ++ [')']
  | PyVal.dict es => lbraceChar :: reprEntries es ++ [rbraceChar]
  | PyVal.list xs => '[' :: reprItems xs ++ [']']
termination_by structural v => v

/-- Renders dict entries as `'key': value, ...` (Python dict repr body). -/
def reprEntries : List (String × PyVal) → List Char
  | [] => []
  | (k, v) :: rest =>
      (quoteChar :: k.toList ++ [quoteChar, ':', ' '] ++ pyReprL v)
        ++ (match rest with | [] => [] | _ :: _ => [',', ' '])
        ++ reprEntries rest
termination_by structural l => l

/-- Renders list items separated by `, ` (Python list repr body). -/
def reprItems : List PyVal → List Char
  | [] => []
  | v :: rest =>
      pyReprL v
        ++ (match rest with | [] => [] | _ :: _ => [',', ' '])
        ++ reprItems rest
termination_by structural l => l

end

/-- Python `str()` of a dumped value: like `repr` except strings are bare and
datetimes render in date-like form. -/
def pyStrL : PyVal → List Char
  | PyVal.str s => s.toList
  | PyVal.dt ps => joinSep ['-'] (ps.map (fun n => (toString n).toList))
  | v => pyReprL v

/-- Whether `pat` is a prefix of the second list (char-by-char). -/
def startsWithL : List Char → List Char → Bool
  | [], _ => true
  | _ :: _, [] => false
  | p :: ps, c :: cs => p == c && startsWithL ps cs

/-- Whether `pat` occurs contiguously inside the second list (Python `in`). -/
def listHasSub (pat : List Char) : List Char → Bool
  | [] => pat.isEmpty
  | c :: rest => startsWithL pat (c :: rest) || listHasSub pat rest

/-- The `collect_fields` geometry guard, exactly as in the source:
`any(x in str(v) for x in ["x", "y", "width", "height"])`. -/
def geomLike (v : PyVal) : Bool :=
  ["x", "y", "width", "height"].any (fun t => listHasSub t.toList (pyStrL v))

/-- Python truthiness of a dumped value. -/
def pyTruthy : PyVal → Bool
  | PyVal.none => false
  | PyVal.bool b => b
  | PyVal.int n => n != 0
  | PyVal.float q => q != 0
  | PyVal.str s => s != ""
  | PyVal.dt _ => true
  | PyVal.dict es => !es.isEmpty
  | PyVal.list xs => !xs.isEmpty

/-- Python `dict.get(k)`: last binding wins (assignments overwrite). -/
def dictGet (es : List (String × PyVal)) (k : String) : Option PyVal :=
  es.foldl (fun acc p => if p.1 == k then some p.2 else acc) Option.none

/-- Python `d[k] = v`: replaces an existing binding in place, else appends. -/
def dictSet (es : List (String × PyVal)) (k : String) (v : PyVal) :
    List (String × PyVal) :=
  if es.any (fun p => p.1 == k) then
    es.map (fun p => if p.1 == k then (p.1, v) else p)
  else es ++ [(k, v)]

/-!
## Normalizer (`_normalize`)

The regex rewrites of `_normalize` are implemented as character scanners with
the same semantics (leftmost match, greedy quantifiers): whitespace-run
collapsing, the date-separator rewrite of `digits, separator, digits,
separator, digits` (separator a dash or slash) into dash-separated groups,
currency-symbol stripping and thousands-comma removal.
-/

/-- Python `str.strip()`: drop leading and trailing whitespace. -/
def pyStrip (s : List Char) : List Char :=
  ((s.dropWhile Char.isWhitespace).reverse.dropWhile Char.isWhitespace).reverse

/-- State machine for whitespace-run collapsing: `inRun` records whether the
previous character was part of a whitespace run already replaced. -/
def collapseWsGo (inRun : Bool) : List Char → List Char
  | [] => []
  | c :: rest =>
    if c.isWhitespace then
      if inRun then collapseWsGo true rest
      else ' ' :: collapseWsGo true rest
    else c :: collapseWsGo false rest

/-- `re.sub(r"\s+", " ", s)`: each maximal whitespace run becomes one space. -/
def collapseWs (s : List Char) : List Char := collapseWsGo false s

/-- Date separator characters: dash or slash. -/
def isDateSep (c : Char) : Bool := c == '-' || c == '/'

/-- Attempt the date regex at the head of `s`; on success return the
replacement text `\1-\2-\3` and the unconsumed remainder. -/
def dateMatchAt (s : List Char) : Option (List Char × List Char) :=
  let d1 := s.takeWhile Char.isDigit
  let r1 := s.dropWhile Char.isDigit
  if 1 ≤ d1.length ∧ d1.length ≤ 4 then
    match r1 with
    | c1 :: t1 =>
      if isDateSep c1 then
        let d2 := t1.takeWhile Char.isDigit
        let r2 := t1.dropWhile Char.isDigit
        if 1 ≤ d2.length ∧ d2.length ≤ 2 then
          match r2 with
          | c2 :: t2 =>
            if isDateSep c2 then
              let d3 := t2.takeWhile Char.isDigit
              if 1 ≤ d3.length then
                some (d1 ++ '-' :: d2 ++ '-' :: d3.take 4, t2.drop (min 4 d3.length))
              else Option.none
            else Option.none
          | [] => Option.none
        else Option.none
      else Option.none
    | [] => Option.none
  else Option.none

/-- Fuelled scan applying the date rewrite at every leftmost match. -/
def dateSubGo : Nat → List Char → List Char
  | 0, s => s
  | _ + 1, [] => []
  | fuel + 1, c :: rest =>
    match dateMatchAt (c :: rest) with
    | some (rep, rest') => rep ++ dateSubGo fuel rest'
    | Option.none => c :: dateSubGo fuel rest

/-- `re.sub` of the date pattern (fuel bounded by the text length, which the
scan never exceeds since every step consumes at least one character). -/
def dateSub (s : List Char) : List Char := dateSubGo s.length s

/-- `re.search` of the date pattern: some position matches. -/
def hasDateMatch : List Char → Bool
  | [] => false
  | c :: rest => (dateMatchAt (c :: rest)).isSome || hasDateMatch rest

/-- Currency symbols `$`, `€`, `£`. -/
def isCurrencySym (c : Char) : Bool := c == '$' || c == '€' || c == '£'

/-- State machine for currency stripping: `skipWs` records that the scanner
is inside the whitespace run following a stripped symbol. -/
def currencySubGo (skipWs : Bool) : List Char → List Char
  | [] => []
  | c :: rest =>
    if isCurrencySym c then currencySubGo true rest
    else if skipWs && c.isWhitespace then currencySubGo true rest
    else c :: currencySubGo false rest

/-- `re.sub(r"[$€£]\s*", "", s)`: drop each symbol with trailing whitespace. -/
def currencySub (s : List Char) : List Char := currencySubGo false s

/-- `re.sub(r",(?=\d\x7b3\x7d)", "", s)`: drop commas followed by three
digits (lookahead, not consumed). -/
def commaSub : List Char → List Char
  | [] => []
  | c :: rest =>
    if c == ',' ∧ 3 ≤ rest.length ∧ (rest.take 3).all Char.isDigit then
      commaSub rest
    else c :: commaSub rest

/-- The textual pipeline of `_normalize`: strip, lower, collapse whitespace,
optional date-separator rewrite, optional currency stripping. -/
def normalizeText (s : List Char) (normalize_dates normalize_currency : Bool) :
    List Char :=
  let s1 := (pyStrip s).map Char.toLower
  let s2 := collapseWs s1
  let s3 := if normalize_dates && hasDateMatch s2 then dateSub s2 else s2
  if normalize_currency then commaSub (currencySub s3) else s3

/-- `_normalize(value, normalize_dates, normalize_currency)`: `None` and
numerics (including booleans, which Python counts as ints) pass through; any
other value is converted with `str()` and canonicalized textually. -/
def normalizeVal (value : PyVal)
    (normalize_dates : Bool := true) (normalize_currency : Bool := true) :
    PyVal :=
  match value with
  | PyVal.none => PyVal.none
  | PyVal.bool b => PyVal.bool b
  | PyVal.int n => PyVal.int n
  | PyVal.float q => PyVal.float q
  | v =>
      PyVal.str (String.mk
        (normalizeText (pyStrL v) normalize_dates normalize_currency))

/-!
## Data model (`rpd/models.py`)

Pydantic models become structures; `datetime` fields are carried as their
numeric components; `float` fields as rationals; open `dict[str, Any]` fields
as ordered association lists over `PyVal`.  `EmbeddedMetadata` has
`extra = "allow"`, modelled by the companion `extra` list of unknown fields.
-/

structure Bounds where
  x : Rat
  y : Rat
  width : Rat
  height : Rat
deriving DecidableEq

structure Geometry where
  type : String := "box"
  bounds : Option Bounds := Option.none
  points : Option (List (List (String × Rat))) := Option.none
deriving DecidableEq

structure TechnicalMetadata where
  file_name : String
  mime_type : String
  extension : String := ""
  file_size_bytes : Int
  hash_sha256 : String
  hash_md5 : Option String := Option.none
  created_at_ingested : List Int := []
  source_system : String := ""
  source_uri : Option String := Option.none
  encryption_flag : Bool := false
  password_protected_flag : Bool := false
  embedded_object_count : Option Int := Option.none
deriving DecidableEq

structure EmbeddedMetadata where
  title : Option String := Option.none
  author : Option String := Option.none
  creator : Option String := Option.none
  producer : Option String := Option.none
  creation_date : Option String := Option.none
  modified_date : Option String := Option.none
  page_count : Option Int := Option.none
  exif : Option (List (String × PyVal)) := Option.none
  last_modified_by : Option String := Option.none
  revision : Option String := Option.none
  from_addr : Option String := Option.none
  to_addr : Option String := Option.none
  cc : Option String := Option.none
  bcc : Option String := Option.none
  date : Option String := Option.none
  subject : Option String := Option.none
  message_id : Option String := Option.none
  attachments : Option (List (List (String × PyVal))) := Option.none
  extra : List (String × PyVal) := []
deriving DecidableEq

structure ContentMetadata where
  language : Option String := Option.none
  language_confidence : Option Rat := Option.none
  page_count : Option Int := Option.none
  sheet_count : Option Int := Option.none
  slide_count : Option Int := Option.none
  text_length : Int := 0
  word_count : Int := 0
  table_count : Int := 0
  form_field_count : Int := 0
  selection_count : Int := 0
  signature_count : Int := 0
  entity_counts : Option (List (String × Int)) := Option.none
deriving DecidableEq

structure DocumentRoot where
  id : String
  technical_metadata : TechnicalMetadata
  embedded_metadata : Option EmbeddedMetadata := Option.none
  content_metadata : Option ContentMetadata := Option.none
  confidence : Option Rat := Option.none
deriving DecidableEq

structure Part where
  id : String
  part_type : String
  index : Int := 0
  metadata : Option (List (String × PyVal)) := Option.none
  block_ids : List String := []
  confidence : Option Rat := Option.none
  geometry : Option Geometry := Option.none
deriving DecidableEq

structure Block where
  id : String
  block_type : String
  part_id : Option String := Option.none
  content : Option String := Option.none
  value : PyVal := PyVal.none
  key : Option String := Option.none
  cells : Option (List (List PyVal)) := Option.none
  rows : Option Int := Option.none
  cols : Option Int := Option.none
  state : Option String := Option.none
  confidence : Option Rat := Option.none
  geometry : Option Geometry := Option.none
  children : Option (List String) := Option.none
deriving DecidableEq

structure Relationship where
  source_id : String
  target_id : String
  relation_type : String := "contains"
deriving DecidableEq

structure Provenance where
  run_id : String
  extractor_version : String
  extractor_name : String := "rpd-builtin"
  source_uri : Option String := Option.none
  extraction_timestamp : List Int := []
  settings : Option (List (String × PyVal)) := Option.none
deriving DecidableEq

structure ExtractionResult where
  document : DocumentRoot
  parts : List Part := []
  blocks : List Block := []
  relationships : List Relationship := []
  provenance : Provenance
deriving DecidableEq

/-- Dump an optional string field. -/
def optStr : Option String → PyVal
  | some s => PyVal.str s
  | Option.none => PyVal.none

/-- Dump an optional int field. -/
def optInt : Option Int → PyVal
  | some n => PyVal.int n
  | Option.none => PyVal.none

/-- Dump an optional float field. -/
def optFloat : Option Rat → PyVal
  | some q => PyVal.float q
  | Option.none => PyVal.none

/-- Dump an optional dict field. -/
def optDict : Option (List (String × PyVal)) → PyVal
  | some es => PyVal.dict es
  | Option.none => PyVal.none

/-- Entry list of `TechnicalMetadata.model_dump()`. -/
def techEntries (m : TechnicalMetadata) : List (String × PyVal) :=
  [
    ("file_name", PyVal.str m.file_name),
    ("mime_type", PyVal.str m.mime_type),
    ("extension", PyVal.str m.extension),
    ("file_size_bytes", PyVal.int m.file_size_bytes),
    ("hash_sha256", PyVal.str m.hash_sha256),
    ("hash_md5", optStr m.hash_md5),
    ("created_at_ingested", PyVal.dt m.created_at_ingested),
    ("source_system", PyVal.str m.source_system),
    ("source_uri", optStr m.source_uri),
    ("encryption_flag", PyVal.bool m.encryption_flag),
    ("password_protected_flag", PyVal.bool m.password_protected_flag),
    ("embedded_object_count", optInt m.embedded_object_count)]

/-- `TechnicalMetadata.model_dump()`. -/
def techDump (m : TechnicalMetadata) : PyVal := PyVal.dict (techEntries m)

/-- Entry list of `EmbeddedMetadata.model_dump()` (declared fields, then
the extras). -/
def embEntries (m : EmbeddedMetadata) : List (String × PyVal) :=
  ([
    ("title", optStr m.title),
    ("author", optStr m.author),
    ("creator", optStr m.creator),
    ("producer", optStr m.producer),
    ("creation_date", optStr m.creation_date),
    ("modified_date", optStr m.modified_date),
    ("page_count", optInt m.page_count),
    ("exif", optDict m.exif),
    ("last_modified_by", optStr m.last_modified_by),
    ("revision", optStr m.revision),
    ("from_addr", optStr m.from_addr),
    ("to_addr", optStr m.to_addr),
    ("cc", optStr m.cc),
    ("bcc", optStr m.bcc),
    ("date", optStr m.date),
    ("subject", optStr m.subject),
    ("message_id", optStr m.message_id),
    ("attachments",
      (match m.attachments with
       | some xs => PyVal.list (xs.map PyVal.dict)
       | Option.none => PyVal.none))] ++ m.extra)

/-- `EmbeddedMetadata.model_dump()`. -/
def embDump (m : EmbeddedMetadata) : PyVal := PyVal.dict (embEntries m)

/-- Entry list of `ContentMetadata.model_dump()`. -/
def contEntries (m : ContentMetadata) : List (String × PyVal) :=
  [
    ("language", optStr m.language),
    ("language_confidence", optFloat m.language_confidence),
    ("page_count", optInt m.page_count),
    ("sheet_count", optInt m.sheet_count),
    ("slide_count", optInt m.slide_count),
    ("text_length", PyVal.int m.text_length),
    ("word_count", PyVal.int m.word_count),
    ("table_count", PyVal.int m.table_count),
    ("form_field_count", PyVal.int m.form_field_count),
    ("selection_count", PyVal.int m.selection_count),
    ("signature_count", PyVal.int m.signature_count),
    ("entity_counts",
      (match m.entity_counts with
       | some es => PyVal.dict (es.map (fun p => (p.1, PyVal.int p.2)))
       | Option.none => PyVal.none))]

/-- `ContentMetadata.model_dump()`. -/
def contDump (m : ContentMetadata) : PyVal := PyVal.dict (contEntries m)

/-- `DocumentRoot.model_dump()` as the top-level entry list. -/
def docDump (d : DocumentRoot) : List (String × PyVal) :=
  [("id", PyVal.str d.id),
   ("technical_metadata", techDump d.technical_metadata),
   ("embedded_metadata",
     (match d.embedded_metadata with
      | some e => embDump e
      | Option.none => PyVal.none)),
   ("content_metadata",
     (match d.content_metadata with
      | some c => contDump c
      | Option.none => PyVal.none)),
   ("confidence", optFloat d.confidence)]

/-!
## Comparison engine (`rpd/services/comparison_engine.py`)
-/

structure DiffItem where
  diff_type : String
  path : String := ""
  left_value : PyVal := PyVal.none
  right_value : PyVal := PyVal.none
  severity : String
  left_block_id : Option String := Option.none
  right_block_id : Option String := Option.none
  left_confidence : Option Rat := Option.none
  right_confidence : Option Rat := Option.none
  description : String := ""
deriving DecidableEq

/-- Merge the entries of `new` into `out` (Python `out.update(new)`). -/
def dictUpdate (out new : List (String × PyVal)) : List (String × PyVal) :=
  new.foldl (fun o p => dictSet o p.1 p.2) out

/-- The dotted-path join `path = f"..." if prefix else k` of `collect_fields`. -/
def pathJoin (pre k : String) : String :=
  if pre == "" then k else pre ++ "." ++ k

mutual

/-- Handling of one entry value inside the `collect_fields` loop: a nested
dict is recursed into (with a fresh `out`, merged back by `out.update`)
unless the geometry guard fires; non-`None` leaves and guard-matching dicts
are stored at their dotted path; `None` leaves are skipped. -/
def collectVal :
    List (String × PyVal) → String → PyVal → List (String × PyVal)
  | out, path, PyVal.dict es =>
    if geomLike (PyVal.dict es) then dictSet out path (PyVal.dict es)
    else dictUpdate out (collectGo path [] es)
  | out, _, PyVal.none => out
  | out, path, v => dictSet out path v
termination_by structural _ _ v => v

/-- The loop of `collect_fields`, threading the `out` dict through the
entries of `d`. -/
def collectGo :
    String → List (String × PyVal) → List (String × PyVal) →
      List (String × PyVal)
  | _, out, [] => out
  | pre, out, (k, v) :: rest =>
    collectGo pre (collectVal out (pathJoin pre k) v) rest
termination_by structural _ _ l => l

end

/-- `collect_fields(d, prefix)`: flatten a nested dump into dotted paths. -/
def collect_fields (d : List (String × PyVal)) (pre : String) :
    List (String × PyVal) :=
  collectGo pre [] d

/-- Severity rule of `_metadata_diffs` for a changed path (case-sensitive
substring tests, exactly as in the source). -/
def sevFor (key : String) : String :=
  if listHasSub "creator".toList key.toList
      || listHasSub "producer".toList key.toList
      || listHasSub "modified".toList key.toList
      || listHasSub "hash".toList key.toList
  then "high" else "medium"

/-- Per-key body of the `_metadata_diffs` loop. -/
def metaItem (left_flat right_flat : List (String × PyVal)) (normalize : Bool)
    (key : String) : Option DiffItem :=
  match dictGet left_flat key, dictGet right_flat key with
  | Option.none, some rv =>
      some { diff_type := "added", path := key, right_value := rv,
             severity := "low" }
  | some lv, Option.none =>
      some { diff_type := "removed", path := key, left_value := lv,
             severity := "low" }
  | some lv, some rv =>
      if lv = rv then Option.none
      else
        let ln := if normalize then normalizeVal lv else lv
        let rn := if normalize then normalizeVal rv else rv
        if ln = rn then Option.none
        else some { diff_type := "changed", path := key, left_value := lv,
                    right_value := rv, severity := sevFor key }
  | Option.none, Option.none => Option.none

/-- `_metadata_diffs` (FR-40).  Python iterates the key set
`set(left_flat) | set(right_flat)`; the unordered set is modelled as the
deduplicated concatenation of both key lists. -/
def metadata_diffs (left right : ExtractionResult) (normalize : Bool) :
    List DiffItem :=
  let left_flat := collect_fields (docDump left.document) ""
  let right_flat := collect_fields (docDump right.document) ""
  let all_keys := (left_flat.map Prod.fst ++ right_flat.map Prod.fst).dedup
  all_keys.filterMap (metaItem left_flat right_flat normalize)

/-- The `_get` helper of `_structure_diffs` for optional counters:
`getattr(obj, name, 0) or 0` (absent object, absent value and zero all
collapse to zero). -/
def cmOpt (cm : Option ContentMetadata) (sel : ContentMetadata → Option Int) :
    Int :=
  match cm with
  | some c => (sel c).getD 0
  | Option.none => 0

/-- The `_get` helper for non-optional counters (`or 0` is the identity on
an int defaulting to 0). -/
def cmInt (cm : Option ContentMetadata) (sel : ContentMetadata → Int) : Int :=
  match cm with
  | some c => sel c
  | Option.none => 0

/-- The `check` helper of `_structure_diffs`. -/
def structCheck (name : String) (lv rv : Int) (severity : String) :
    List DiffItem :=
  if lv = rv then []
  else [{ diff_type := "changed", path := "content_metadata." ++ name,
          left_value := PyVal.int lv, right_value := PyVal.int rv,
          severity := severity }]

/-- `_structure_diffs` (FR-41). -/
def structure_diffs (left right : ExtractionResult) : List DiffItem :=
  let lc := left.document.content_metadata
  let rc := right.document.content_metadata
  structCheck "page_count" (cmOpt lc (fun c => c.page_count))
      (cmOpt rc (fun c => c.page_count)) "high"
    ++ structCheck "table_count" (cmInt lc (fun c => c.table_count))
      (cmInt rc (fun c => c.table_count)) "high"
    ++ structCheck "form_field_count" (cmInt lc (fun c => c.form_field_count))
      (cmInt rc (fun c => c.form_field_count)) "medium"
    ++ structCheck "signature_count" (cmInt lc (fun c => c.signature_count))
      (cmInt rc (fun c => c.signature_count)) "high"
    ++ (if left.parts.length = right.parts.length then []
        else [{ diff_type := "changed", path := "parts.length",
                left_value := PyVal.int left.parts.length,
                right_value := PyVal.int right.parts.length,
                severity := "high" }])

/-- Python `str.split()` with no argument: split on whitespace runs,
dropping empty pieces (accumulator carries the current token reversed). -/
def splitTokens (cur : List Char) : List Char → List (List Char)
  | [] => if cur.isEmpty then [] else [cur.reverse]
  | c :: rest =>
    if c.isWhitespace then
      if cur.isEmpty then splitTokens [] rest
      else cur.reverse :: splitTokens [] rest
    else splitTokens (c :: cur) rest

/-- `set(s.lower().split())`: the case-folded whitespace-split token set. -/
def pyTokenSet (s : String) : Finset (List Char) :=
  (splitTokens [] (s.toList.map Char.toLower)).toFinset

/-- `_text_similarity`: Jaccard similarity over case-folded
whitespace-split token sets, with the `or 1` guard on the union size
(`mkRat` is the executable form of the division `inter / union`). -/
def text_similarity (a b : String) : Rat :=
  if a = "" ∧ b = "" then 1
  else if a = "" ∨ b = "" then 0
  else
    let aa := pyTokenSet a
    let bb := pyTokenSet b
    let inter := (aa ∩ bb).card
    let uni := (aa ∪ bb).card
    mkRat inter (if uni = 0 then 1 else uni)

/-- Concatenated textual content of a side:
`" ".join(b.content or "" for b in blocks if b.content)`. -/
def docText (t : ExtractionResult) : String :=
  String.intercalate " " (t.blocks.filterMap (fun b =>
    match b.content with
    | some s => if s = "" then Option.none else some s
    | Option.none => Option.none))

/-- Two-decimal rendering of the similarity for the diff description
(Python two-decimal formatting: round-half-even of `sim * 100`, carried out
on numerator and denominator so that it is executable). -/
def fmt2 (q : Rat) : String :=
  let num : Int := q.num * 100
  let den : Int := (q.den : Int)
  let fl : Int := num.fdiv den
  let rem : Int := num - fl * den
  let n : Int :=
    if den < 2 * rem then fl + 1
    else if 2 * rem < den then fl
    else if fl % 2 = 0 then fl else fl + 1
  toString (n / 100) ++ "." ++ (if n % 100 < 10 then "0" else "")
    ++ toString (n % 100)

/-- `b.value or b.content`: the stored value of a kv block. -/
def kvVal (b : Block) : PyVal :=
  if pyTruthy b.value then b.value
  else match b.content with
    | some s => PyVal.str s
    | Option.none => PyVal.none

/-- The key/value map of a side: kv-typed blocks with a truthy key, keyed by
the lower-cased key, valued by `b.value or b.content`. -/
def kvMapOf (t : ExtractionResult) : List (String × PyVal) :=
  t.blocks.filterMap (fun b =>
    if b.block_type = "kv" ∧ pyTruthy (optStr b.key) = true then
      some (String.mk ((b.key.getD "").toList.map Char.toLower), kvVal b)
    else Option.none)

/-- Python `.get(k)` on a kv map: a missing key reads as `None`, exactly like
a stored `None` value. -/
def kvGet (es : List (String × PyVal)) (k : String) : PyVal :=
  (dictGet es k).getD PyVal.none

/-- Per-key body of the kv-comparison loop in `_content_diffs`. -/
def kvItem (l_kv r_kv : List (String × PyVal)) (normalize : Bool)
    (k : String) : Option DiffItem :=
  let lv := kvGet l_kv k
  let rv := kvGet r_kv k
  if lv = PyVal.none then
    some { diff_type := "added", path := "kv." ++ k, right_value := rv,
           severity := "medium" }
  else if rv = PyVal.none then
    some { diff_type := "removed", path := "kv." ++ k, left_value := lv,
           severity := "medium" }
  else
    let ln := if normalize then normalizeVal lv else lv
    let rn := if normalize then normalizeVal rv else rv
    if ln = rn then Option.none
    else some { diff_type := "changed", path := "kv." ++ k, left_value := lv,
                right_value := rv, severity := "high" }

/-- The document-level text diff of `_content_diffs`. -/
def textDiffItem (sim : Rat) : DiffItem :=
  { diff_type := "changed", path := "blocks.text",
    description := "Text similarity: " ++ fmt2 sim,
    severity := if sim > mkRat 8 10 then "medium" else "high" }

/-- `_content_diffs` (FR-42): document-level text similarity, kv alignment
(key set modelled as deduplicated concatenation, as in 4.3), table count. -/
def content_diffs (left right : ExtractionResult) (normalize : Bool) :
    List DiffItem :=
  let l_text := docText left
  let r_text := docText right
  let sim := text_similarity l_text r_text
  let textDiffs :=
    if sim < mkRat 95 100 then [textDiffItem sim] else []
  let l_kv := kvMapOf left
  let r_kv := kvMapOf right
  let kv_keys := (l_kv.map Prod.fst ++ r_kv.map Prod.fst).dedup
  let kvDiffs := kv_keys.filterMap (kvItem l_kv r_kv normalize)
  let l_tables := (left.blocks.filter (fun b => b.block_type == "table")).length
  let r_tables := (right.blocks.filter (fun b => b.block_type == "table")).length
  let tableDiffs :=
    if l_tables = r_tables then []
    else [{ diff_type := "changed", path := "blocks.table_count",
            left_value := PyVal.int l_tables,
            right_value := PyVal.int r_tables, severity := "high" }]
  textDiffs ++ kvDiffs ++ tableDiffs

/-- `_compute_status`: the threshold argument is received but never read. -/
def compute_status (diffs : List DiffItem) (threshold : Rat) : String :=
  let critical := diffs.countP (fun d => d.severity == "critical")
  let high := diffs.countP (fun d => d.severity == "high")
  if critical > 0 then "conflict"
  else if high > 2 then "partial_match"
  else if high > 0 ∨ diffs.any (fun d => d.severity == "medium") then
    "partial_match"
  else "match"

/-- `s[k] += 1` guarded by `if k in s`. -/
def bumpKey (s : List (String × Nat)) (k : String) : List (String × Nat) :=
  if s.any (fun p => p.1 == k) then
    s.map (fun p => if p.1 == k then (p.1, p.2 + 1) else p)
  else s

/-- `_severity_summary`: zero-filled histogram over the four buckets. -/
def severity_summary (diffs : List DiffItem) : List (String × Nat) :=
  diffs.foldl (fun s d => bumpKey s d.severity)
    [("low", 0), ("medium", 0), ("high", 0), ("critical", 0)]

/-- Rendering of one diff item inside `_narrative`. -/
def narrateItem (d : DiffItem) : String :=
  if d.diff_type == "added" then "Added: " ++ d.path
  else if d.diff_type == "removed" then "Removed: " ++ d.path
  else "Changed: " ++ d.path

/-- `_narrative`: first ten items, optional overflow marker, fixed fallback. -/
def narrative (diffs : List DiffItem) : String :=
  let parts := (diffs.take 10).map narrateItem
  let parts :=
    if diffs.length > 10 then
      parts ++ ["... and " ++ toString (diffs.length - 10) ++ " more"]
    else parts
  if parts = [] then "No significant differences"
  else String.intercalate "; " parts

structure SimilarityScores where
  document_level : Rat := 1
  metadata_similarity : Option Rat := Option.none
  structure_similarity : Option Rat := Option.none
  content_similarity : Option Rat := Option.none
  per_part : List PyVal := []
deriving DecidableEq

structure ConflictResolution where
  policy : String := ""
  chosen_values : List PyVal := []
deriving DecidableEq

structure ComparisonReport where
  id : String
  status : String
  similarity_scores : Option SimilarityScores := Option.none
  metadata_diffs : List DiffItem := []
  structure_diffs : List DiffItem := []
  content_diffs : List DiffItem := []
  query_answer_diffs : List DiffItem := []
  severity_summary : Option (List (String × Nat)) := Option.none
  narrative_summary : String := ""
  conflict_resolution : Option ConflictResolution := Option.none
  left_provenance : Option Provenance := Option.none
  right_provenance : Option Provenance := Option.none
  left_run_id : Option String := Option.none
  right_run_id : Option String := Option.none
  created_at : List Int := []
deriving DecidableEq

/-- `.get(k, dflt)` on a `dict[str, bool]`. -/
def bGetD (es : List (String × Bool)) (k : String) (dflt : Bool) : Bool :=
  (es.foldl (fun acc p => if p.1 == k then some p.2 else acc) Option.none).getD
    dflt

/-- The two normalization lines at the head of `compare`:
`norms = normalization_rules or defaults;
normalize = norms.get("dates", True) or norms.get("currency", True)`. -/
def resolveNormalize
    (normalization_rules : Option (List (String × Bool))) : Bool :=
  let norms := normalization_rules.getD [("dates", true), ("currency", true)]
  bGetD norms "dates" true || bGetD norms "currency" true

/-- `compare` (FR-40 to FR-61).  The ambient effects are passed explicitly:
`fresh_uuid` stands for `str(uuid.uuid4())` and `utcnow` for
`datetime.utcnow()`. -/
def compare (left right : ExtractionResult)
    (normalization_rules : Option (List (String × Bool)) := Option.none)
    (similarity_threshold : Rat := 0.95)
    (document_type : Option String := Option.none)
    (report_id : Option String := Option.none)
    (fresh_uuid : String := "") (utcnow : List Int := []) : ComparisonReport :=
  let _ := document_type
  let normalize := resolveNormalize normalization_rules
  let md := metadata_diffs left right normalize
  let sd := structure_diffs left right
  let cd := content_diffs left right normalize
  let all_diffs := md ++ sd ++ cd
  let ss := severity_summary all_diffs
  let status := compute_status all_diffs similarity_threshold
  let doc_sim := text_similarity (docText left) (docText right)
  let scores : SimilarityScores :=
    { document_level := doc_sim,
      metadata_similarity :=
        some (if md = [] then 1 else max 0 (1 - (md.length : Rat) / 20)),
      structure_similarity :=
        some (if sd = [] then 1 else max 0 (1 - (sd.length : Rat) / 5)),
      content_similarity := some doc_sim }
  { id :=
      (match report_id with
       | some s => if s = "" then fresh_uuid else s
       | Option.none => fresh_uuid),
    status := status,
    similarity_scores := some scores,
    metadata_diffs := md,
    structure_diffs := sd,
    content_diffs := cd,
    severity_summary := some ss,
    narrative_summary := narrative all_diffs,
    left_provenance := some left.provenance,
    right_provenance := some right.provenance,
    left_run_id := some left.provenance.run_id,
    right_run_id := some right.provenance.run_id,
    created_at := utcnow }

/-!
## Concrete example trees used by witnesses and counterexamples
-/

/-- A fixed provenance value. -/
def provA : Provenance := { run_id := "run-a", extractor_version := "1" }

/-- Technical metadata with a given SHA-256 hash, all else fixed. -/
def techWith (h : String) : TechnicalMetadata :=
  { file_name := "f.pdf", mime_type := "application/pdf",
    file_size_bytes := 10, hash_sha256 := h }

/-- A block-free tree whose only varying field is the SHA-256 hash. -/
def treeHash (h : String) : ExtractionResult :=
  { document := { id := "doc-1", technical_metadata := techWith h },
    provenance := provA }

/-- A text block with the given id and content. -/
def textBlock (i : String) (c : String) : Block :=
  { id := i, block_type := "text", content := some c }

/-- A tree with a single block carrying the given content. -/
def treeText (c : String) : ExtractionResult :=
  { document := { id := "doc-1", technical_metadata := techWith "aaa" },
    blocks := [textBlock "b1" c],
    provenance := provA }

/-- A diff item with the given path and severity (diff kind `changed`). -/
def sevItem (p sev : String) : DiffItem :=
  { diff_type := "changed", path := p, severity := sev }

/-!
## General lemmas
-/

/-- A single-character pattern occurs in a list iff the character does. -/
theorem listHasSub_singleton (c : Char) :
    ∀ s : List Char, listHasSub [c] s = true ↔ c ∈ s := by
  intro s
  induction s with
  | nil => simp [listHasSub]
  | cons a rest ih =>
    simp [listHasSub, startsWithL, ih, List.mem_cons]

/-- A character of a present key occurs in the dict repr body. -/
theorem mem_reprEntries_of_key {c : Char} {k : String} {v : PyVal} :
    ∀ {es : List (String × PyVal)}, (k, v) ∈ es → c ∈ k.toList →
      c ∈ reprEntries es := by
  intro es
  induction es with
  | nil => simp
  | cons p rest ih =>
    intro hmem hc
    rcases List.mem_cons.mp hmem with h | h
    · subst h
      have hc2 : c ∈ k.data := hc
      simp [reprEntries, List.mem_append, hc2]
    · simp [reprEntries, List.mem_append, ih h hc]

/-- The geometry guard fires on any dict one of whose keys contains `x`. -/
theorem geomLike_of_key_x {k : String} {v : PyVal}
    {es : List (String × PyVal)} (h : (k, v) ∈ es)
    (hx : 'x' ∈ k.toList) : geomLike (PyVal.dict es) = true := by
  have hmem : 'x' ∈ pyReprL (PyVal.dict es) := by
    rw [pyReprL]
    exact List.mem_cons_of_mem _
      (List.mem_append_left _ (mem_reprEntries_of_key h hx))
  have hsub : listHasSub ['x'] (pyStrL (PyVal.dict es)) = true :=
    (listHasSub_singleton 'x' _).mpr hmem
  simp only [geomLike, List.any_eq_true]
  exact ⟨"x", by simp, hsub⟩

/-- The technical-metadata dump is always atomic for the flattener. -/
theorem geom_tech (m : TechnicalMetadata) :
    geomLike (PyVal.dict (techEntries m)) = true :=
  geomLike_of_key_x (k := "extension") (v := PyVal.str m.extension)
    (by simp [techEntries]) (by decide)

/-- The embedded-metadata dump is always atomic for the flattener. -/
theorem geom_emb (m : EmbeddedMetadata) :
    geomLike (PyVal.dict (embEntries m)) = true :=
  geomLike_of_key_x (k := "exif") (v := optDict m.exif)
    (by simp [embEntries]) (by decide)

/-- The content-metadata dump is always atomic for the flattener. -/
theorem geom_cont (m : ContentMetadata) :
    geomLike (PyVal.dict (contEntries m)) = true :=
  geomLike_of_key_x (k := "text_length") (v := PyVal.int m.text_length)
    (by simp [contEntries]) (by decide)

/-- Closed form of the flattened document dump: because every nested
metadata dump trips the geometry guard, the flattening keeps each of them as
one atomic top-level leaf and drops the absent optional ones. -/
theorem collect_docDump (d : DocumentRoot) :
    collect_fields (docDump d) "" =
      [("id", PyVal.str d.id),
       ("technical_metadata", techDump d.technical_metadata)]
      ++ (match d.embedded_metadata with
          | some e => [("embedded_metadata", embDump e)]
          | Option.none => [])
      ++ (match d.content_metadata with
          | some c => [("content_metadata", contDump c)]
          | Option.none => [])
      ++ (match d.confidence with
          | some q => [("confidence", PyVal.float q)]
          | Option.none => []) := by
  rcases hE : d.embedded_metadata with _ | e <;>
    rcases hC : d.content_metadata with _ | c <;>
    rcases hQ : d.confidence with _ | q <;>
    simp [collect_fields, collectGo, collectVal, docDump, hE, hC, hQ,
      techDump, embDump, contDump, dictSet, pathJoin, geom_tech, geom_emb,
      geom_cont, optFloat]

/-- Every key of the flattened document dump is one of the five top-level
field names. -/
theorem flat_keys (doc : DocumentRoot) :
    ∀ k ∈ (collect_fields (docDump doc) "").map Prod.fst,
      k ∈ (["id", "technical_metadata", "embedded_metadata",
            "content_metadata", "confidence"] : List String) := by
  intro k hk
  rw [collect_docDump] at hk
  rcases hE : doc.embedded_metadata with _ | e <;>
    rcases hC : doc.content_metadata with _ | c <;>
    rcases hQ : doc.confidence with _ | q <;>
    rw [hE, hC, hQ] at hk <;>
    simp at hk ⊢ <;> tauto

/-- The claim's severity trigger: the path contains `creator`, `producer`,
`modified` or `hash`, compared case-insensitively. -/
def pathHasSevToken (path : String) : Bool :=
  ["creator", "producer", "modified", "hash"].any
    (fun t => listHasSub t.toList (path.toList.map Char.toLower))

/-- Unfolding of `_compute_status` as a plain conditional chain. -/
theorem compute_status_eq (diffs : List DiffItem) (t : Rat) :
    compute_status diffs t =
      if 0 < diffs.countP (fun d => d.severity == "critical") then "conflict"
      else if 2 < diffs.countP (fun d => d.severity == "high") then
        "partial_match"
      else if 0 < diffs.countP (fun d => d.severity == "high") ∨
          diffs.any (fun d => d.severity == "medium") = true then
        "partial_match"
      else "match" := rfl

/-- `compare` is invariant under any change of argument that leaves the
resolved normalization flag unchanged. -/
theorem compare_rules_congr (left right : ExtractionResult)
    (rules1 rules2 : Option (List (String × Bool))) (t : Rat)
    (dt rid : Option String) (u : String) (now : List Int)
    (h : resolveNormalize rules1 = resolveNormalize rules2) :
    compare left right rules1 t dt rid u now =
      compare left right rules2 t dt rid u now := by
  unfold compare
  rw [h]

/-!
## Claim theorems
-/

/-- C8: the `similarity_threshold` parameter is dead — `compare` invoked on
the same trees, rules and report id with any two threshold values yields
the very same report (hence identical diff lists, similarity scores,
severity summary, narrative and status); only the fixed constant 0.95
inside the content differ gates text-diff emission. -/
theorem c8_threshold_dead (left right : ExtractionResult)
    (rules : Option (List (String × Bool))) (t1 t2 : Rat)
    (dt rid : Option String) (u : String) (now : List Int) :
    compare left right rules t1 dt rid u now =
      compare left right rules t2 dt rid u now := rfl

/-- C8 witness at concrete values. -/
theorem c8_threshold_dead_witness :
    compare (treeHash "aaa") (treeHash "bbb") Option.none (1 / 2) Option.none
        Option.none "u" [] =
      compare (treeHash "aaa") (treeHash "bbb") Option.none (99 / 100)
        Option.none Option.none "u" [] :=
  c8_threshold_dead (treeHash "aaa") (treeHash "bbb") Option.none (1 / 2)
    (99 / 100) Option.none Option.none "u" []

/-- C10: normalization is all-or-nothing.  The engine resolves the rule dict
to the single flag `dates or currency` (missing flags default to enabled),
and a call with any rules behaves exactly like a call with both rules set to
that one flag — so enabling only currency still applies the date rule and
vice versa. -/
theorem c10_all_or_nothing (left right : ExtractionResult)
    (rules : Option (List (String × Bool))) (t : Rat)
    (dt rid : Option String) (u : String) (now : List Int) :
    (compare left right rules t dt rid u now =
      compare left right
        (some [("dates", resolveNormalize rules),
               ("currency", resolveNormalize rules)]) t dt rid u now)
    ∧ ∀ d c : Bool,
        resolveNormalize (some [("dates", d), ("currency", c)]) = (d || c) :=
  ⟨compare_rules_congr left right rules _ t dt rid u now
      (Bool.or_self (resolveNormalize rules)).symm,
    fun _ _ => rfl⟩

/-- C4: status resolution follows the fixed order critical → conflict,
more than two high → partial, any high or medium → partial, else match;
three high items give partial, one critical gives conflict, the empty set
gives match, and `incompatible` is never produced. -/
theorem c4_status_resolution (diffs : List DiffItem) (t : Rat) :
    ((∃ d ∈ diffs, d.severity = "critical") →
      compute_status diffs t = "conflict")
    ∧ ((¬ ∃ d ∈ diffs, d.severity = "critical") →
        2 < diffs.countP (fun d => d.severity == "high") →
        compute_status diffs t = "partial_match")
    ∧ ((¬ ∃ d ∈ diffs, d.severity = "critical") →
        ((∃ d ∈ diffs, d.severity = "high") ∨
          (∃ d ∈ diffs, d.severity = "medium")) →
        compute_status diffs t = "partial_match")
    ∧ ((¬ ∃ d ∈ diffs, d.severity = "critical") →
        (¬ ∃ d ∈ diffs, d.severity = "high") →
        (¬ ∃ d ∈ diffs, d.severity = "medium") →
        compute_status diffs t = "match")
    ∧ compute_status diffs t ≠ "incompatible"
    ∧ compute_status [sevItem "a" "high", sevItem "b" "high",
        sevItem "c" "high"] t = "partial_match"
    ∧ compute_status [sevItem "a" "critical"] t = "conflict"
    ∧ compute_status [] t = "match" := by
  have hcrit : (0 < diffs.countP (fun d => d.severity == "critical")) ↔
      ∃ d ∈ diffs, d.severity = "critical" := by
    rw [List.countP_pos_iff]
    simp
  have hhigh : (0 < diffs.countP (fun d => d.severity == "high")) ↔
      ∃ d ∈ diffs, d.severity = "high" := by
    rw [List.countP_pos_iff]
    simp
  have hmed : (diffs.any (fun d => d.severity == "medium") = true) ↔
      ∃ d ∈ diffs, d.severity = "medium" := by
    rw [List.any_eq_true]
    simp
  refine ⟨?_, ?_, ?_, ?_, ?_, rfl, rfl, rfl⟩
  · intro h
    rw [compute_status_eq, if_pos (hcrit.mpr h)]
  · intro hc hh
    rw [compute_status_eq, if_neg (by simpa [hcrit] using hc), if_pos hh]
  · intro hc hh
    rw [compute_status_eq, if_neg (by simpa [hcrit] using hc)]
    rcases Nat.lt_or_ge 2 (diffs.countP (fun d => d.severity == "high")) with
        h2 | h2
    · rw [if_pos h2]
    · rw [if_neg (by omega), if_pos]
      rcases hh with hh | hh
      · exact Or.inl (hhigh.mpr hh)
      · exact Or.inr (hmed.mpr hh)
  · intro hc hh hm
    rw [compute_status_eq, if_neg (by simpa [hcrit] using hc),
      if_neg (by have := (not_iff_not.mpr hhigh).mpr hh; omega),
      if_neg]
    push_neg
    exact ⟨by have := (not_iff_not.mpr hhigh).mpr hh; omega,
      by simpa [hmed] using hm⟩
  · rw [compute_status_eq]
    split_ifs <;> decide

/-- C4 witness: the fixed-order branches discharged at concrete diff sets. -/
theorem c4_status_resolution_witness :
    compute_status [sevItem "a" "critical"] (95 / 100) = "conflict"
    ∧ compute_status [] (95 / 100) = "match" :=
  ⟨(c4_status_resolution [sevItem "a" "critical"] (95 / 100)).1
      ⟨sevItem "a" "critical", by decide, rfl⟩,
    ((((c4_status_resolution [] (95 / 100)).2).2).2).1
      (by decide) (by decide) (by decide)⟩

/-- C2: evaluation of `collect_fields` at the failing input.  The nested map
with key set containing only `count` is kept as an atomic leaf when its value
text contains an `x` (value `"box"`), yet is recursed into when it does not
(value `7`) — the guard inspects the string rendering of the sub-map, not
its key set. -/
theorem c2_flattener_eval :
    collect_fields [("meta", PyVal.dict [("count", PyVal.str "box")])] "" =
      [("meta", PyVal.dict [("count", PyVal.str "box")])]
    ∧ collect_fields [("meta", PyVal.dict [("count", PyVal.int 7)])] "" =
      [("meta.count", PyVal.int 7)]
    ∧ geomLike (PyVal.dict [("count", PyVal.str "box")]) = true
    ∧ geomLike (PyVal.dict [("count", PyVal.int 7)]) = false := by
  refine ⟨by decide, by decide, by decide, by decide⟩

/-- C6: for every changed metadata diff the severity is high exactly when
the path contains `creator`, `producer`, `modified` or `hash`
case-insensitively, and medium otherwise.  (Flattened paths are always among
the five lower-case top-level field names, none of which contains a trigger
under either case convention, so every changed metadata diff is medium and
the case-insensitive reading agrees with the code's case-sensitive test on
every reachable path.) -/
theorem c6_severity_rule (left right : ExtractionResult) (n : Bool) :
    ∀ d ∈ metadata_diffs left right n, d.diff_type = "changed" →
      d.severity =
        (if pathHasSevToken d.path = true then "high" else "medium") := by
  intro d hd hchanged
  simp only [metadata_diffs] at hd
  obtain ⟨k, hk, hsome⟩ := List.mem_filterMap.mp hd
  have hk5 : k ∈ (["id", "technical_metadata", "embedded_metadata",
      "content_metadata", "confidence"] : List String) := by
    rcases List.mem_append.mp (List.mem_dedup.mp hk) with h | h
    · exact flat_keys left.document k h
    · exact flat_keys right.document k h
  rcases hl : dictGet (collect_fields (docDump left.document) "") k with _ | lv <;>
    rcases hr : dictGet (collect_fields (docDump right.document) "") k with _ | rv <;>
    simp only [metaItem, hl, hr] at hsome
  · exact Option.noConfusion hsome
  · obtain rfl : d = _ := (Option.some.inj hsome).symm
    have hlit : ("added" : String) = "changed" := hchanged
    exact absurd hlit (by decide)
  · obtain rfl : d = _ := (Option.some.inj hsome).symm
    have hlit : ("removed" : String) = "changed" := hchanged
    exact absurd hlit (by decide)
  · by_cases h1 : lv = rv
    · rw [if_pos h1] at hsome
      exact Option.noConfusion hsome
    · rw [if_neg h1] at hsome
      by_cases h2 : (if n then normalizeVal lv else lv) =
          (if n then normalizeVal rv else rv)
      · rw [if_pos h2] at hsome
        exact Option.noConfusion hsome
      · rw [if_neg h2] at hsome
        obtain rfl : d = _ := (Option.some.inj hsome).symm
        show sevFor k = (if pathHasSevToken k = true then "high" else "medium")
        fin_cases hk5 <;> decide

/-- The changed technical-metadata diff emitted by the hash scenario. -/
def hashScenarioDiff : DiffItem :=
  { diff_type := "changed", path := "technical_metadata",
    left_value := techDump (techWith "aaa"),
    right_value := techDump (techWith "bbb"),
    severity := "medium" }

/-- C6 witness: applied to the changed technical-metadata diff that the
hash scenario emits. -/
theorem c6_severity_rule_witness :
    hashScenarioDiff.severity =
      (if pathHasSevToken hashScenarioDiff.path = true then "high"
        else "medium") :=
  c6_severity_rule (treeHash "aaa") (treeHash "bbb") true hashScenarioDiff
    (by decide) (by decide)

/-- The executable text-similarity gate in its literal form. -/
theorem const95 : mkRat 95 100 = (19 : Rat) / 20 := by
  rw [Rat.mkRat_eq_div]
  norm_num

/-- The executable severity gate in its literal form. -/
theorem const8 : mkRat 8 10 = (4 : Rat) / 5 := by
  rw [Rat.mkRat_eq_div]
  norm_num

/-- Every kv diff carries a `kv.`-prefixed path. -/
theorem kvItem_path {l r : List (String × PyVal)} {n : Bool} {k : String}
    {d : DiffItem} (h : kvItem l r n k = some d) : d.path = "kv." ++ k := by
  simp only [kvItem] at h
  split_ifs at h <;>
    first
      | exact Option.noConfusion h
      | · obtain rfl : d = _ := (Option.some.inj h).symm
          rfl

/-- A `kv.`-prefixed path never equals `blocks.text`. -/
theorem kv_path_ne (k : String) : "kv." ++ k ≠ "blocks.text" := by
  intro h
  have hd := congrArg String.data h
  rw [String.data_append] at hd
  simp at hd

/-- C5: document text similarity is the Jaccard ratio over case-folded
whitespace-split token sets (1 when both texts are empty, 0 when exactly one
is; in the token-free corner the union is guarded to 1, matching the
division convention of the statement), a `blocks.text` changed diff is
emitted iff the similarity is below 0.95, its severity is high iff the
similarity is at most 0.8, and the disjoint texts `alpha beta` and
`gamma delta` give similarity 0 and a high diff. -/
theorem c5_text_similarity (left right : ExtractionResult) (n : Bool) :
    (∀ a b : String, text_similarity a b =
      (if a = "" ∧ b = "" then (1 : Rat)
       else if a = "" ∨ b = "" then 0
       else ((pyTokenSet a ∩ pyTokenSet b).card : Rat) /
         ((pyTokenSet a ∪ pyTokenSet b).card : Rat)))
    ∧ ((∃ d ∈ content_diffs left right n, d.path = "blocks.text") ↔
        text_similarity (docText left) (docText right) < 19 / 20)
    ∧ (∀ d ∈ content_diffs left right n, d.path = "blocks.text" →
        d.diff_type = "changed" ∧
        d.severity =
          (if text_similarity (docText left) (docText right) ≤ 4 / 5 then
            "high" else "medium"))
    ∧ text_similarity "alpha beta" "gamma delta" = 0
    ∧ docText (treeText "alpha beta") = "alpha beta"
    ∧ (∃ d ∈ content_diffs (treeText "alpha beta") (treeText "gamma delta") n,
        d.path = "blocks.text" ∧ d.diff_type = "changed" ∧
        d.severity = "high") := by
  have hsev : ∀ sim : Rat,
      (if sim > mkRat 8 10 then "medium" else "high") =
        (if sim ≤ (4 : Rat) / 5 then "high" else "medium") := by
    intro sim
    rw [const8]
    by_cases h : sim ≤ (4 : Rat) / 5
    · rw [if_pos h, if_neg (by exact not_lt.mpr h)]
    · rw [if_neg h, if_pos (lt_of_not_le h)]
  refine ⟨?_, ?_, ?_, by decide, by decide, ?_⟩
  · intro a b
    unfold text_similarity
    dsimp only
    split_ifs with h1 h2 h3
    · rfl
    · rfl
    · have hi : ((pyTokenSet a ∩ pyTokenSet b).card) = 0 := by
        have hsub := Finset.card_le_card
          (Finset.inter_subset_union (s := pyTokenSet a) (t := pyTokenSet b))
        omega
      rw [hi, h3]
      norm_num [Rat.mkRat_eq_div]
    · rw [Rat.mkRat_eq_div]
      push_cast
      rfl
  · constructor
    · rintro ⟨d, hd, hpath⟩
      simp only [content_diffs, List.mem_append] at hd
      rcases hd with (hd | hd) | hd
      · by_cases hc :
            text_similarity (docText left) (docText right) < mkRat 95 100
        · rwa [const95] at hc
        · rw [if_neg hc] at hd
          exact absurd hd (List.not_mem_nil _)
      · obtain ⟨k, _, hsome⟩ := List.mem_filterMap.mp hd
        exact absurd (kvItem_path hsome ▸ hpath) (kv_path_ne k)
      · by_cases hc :
            (left.blocks.filter (fun b => b.block_type == "table")).length =
              (right.blocks.filter (fun b => b.block_type == "table")).length
        · rw [if_pos hc] at hd
          exact absurd hd (List.not_mem_nil _)
        · rw [if_neg hc] at hd
          obtain rfl : d = _ := List.mem_singleton.mp hd
          have hlit : ("blocks.table_count" : String) = "blocks.text" := hpath
          exact absurd hlit (by decide)
    · intro hlt
      refine ⟨textDiffItem (text_similarity (docText left) (docText right)),
        ?_, rfl⟩
      simp only [content_diffs, List.mem_append]
      exact Or.inl (Or.inl (by
        rw [if_pos (by rwa [const95])]
        exact List.mem_singleton.mpr rfl))
  · intro d hd hpath
    simp only [content_diffs, List.mem_append] at hd
    rcases hd with (hd | hd) | hd
    · by_cases hc :
          text_similarity (docText left) (docText right) < mkRat 95 100
      · rw [if_pos hc] at hd
        obtain rfl : d = _ := List.mem_singleton.mp hd
        exact ⟨rfl, hsev _⟩
      · rw [if_neg hc] at hd
        exact absurd hd (List.not_mem_nil _)
    · obtain ⟨k, _, hsome⟩ := List.mem_filterMap.mp hd
      exact absurd (kvItem_path hsome ▸ hpath) (kv_path_ne k)
    · by_cases hc :
          (left.blocks.filter (fun b => b.block_type == "table")).length =
            (right.blocks.filter (fun b => b.block_type == "table")).length
      · rw [if_pos hc] at hd
        exact absurd hd (List.not_mem_nil _)
      · rw [if_neg hc] at hd
        obtain rfl : d = _ := List.mem_singleton.mp hd
        have hlit : ("blocks.table_count" : String) = "blocks.text" := hpath
        exact absurd hlit (by decide)
  · refine ⟨textDiffItem (text_similarity (docText (treeText "alpha beta"))
        (docText (treeText "gamma delta"))), ?_, rfl, rfl, ?_⟩
    · simp only [content_diffs, List.mem_append]
      exact Or.inl (Or.inl (by
        rw [if_pos (by decide)]
        exact List.mem_singleton.mpr rfl))
    · show (if text_similarity (docText (treeText "alpha beta"))
          (docText (treeText "gamma delta")) > mkRat 8 10 then "medium"
          else "high") = "high"
      rw [if_neg (by decide)]

/-- C5 witness: the emission equivalence and severity rule applied to the
disjoint-text trees. -/
theorem c5_text_similarity_witness :
    text_similarity (docText (treeText "alpha beta"))
        (docText (treeText "gamma delta")) < 19 / 20 :=
  ((c5_text_similarity (treeText "alpha beta") (treeText "gamma delta")
      true).2.1).mp
    (by
      obtain ⟨d, hd, h1, _, _⟩ :=
        (c5_text_similarity (treeText "alpha beta") (treeText "gamma delta")
          true).2.2.2.2.2
      exact ⟨d, hd, h1⟩)

/-- On equal flat maps the metadata loop body never emits. -/
theorem metaItem_self (lf : List (String × PyVal)) (n : Bool) (k : String) :
    metaItem lf lf n k = Option.none := by
  rcases h : dictGet lf k with _ | v <;> simp [metaItem, h]

/-- The metadata differ is reflexively empty. -/
theorem metadata_diffs_self (T : ExtractionResult) (n : Bool) :
    metadata_diffs T T n = [] := by
  simp only [metadata_diffs]
  exact List.filterMap_eq_nil_iff.mpr (fun k _ => metaItem_self _ n k)

/-- The structure differ is reflexively empty. -/
theorem structure_diffs_self (T : ExtractionResult) :
    structure_diffs T T = [] := by
  simp [structure_diffs, structCheck]

/-- A key present in a dict resolves to a value bound in it. -/
theorem dictGet_mem : ∀ (es : List (String × PyVal)) (k : String),
    k ∈ es.map Prod.fst → ∃ v, dictGet es k = some v ∧ (k, v) ∈ es := by
  intro es
  induction es using List.reverseRecOn with
  | nil => simp
  | append_singleton es p ih =>
    intro k hk
    have hfold : dictGet (es ++ [p]) k =
        (if p.1 == k then some p.2 else dictGet es k) := by
      simp [dictGet, List.foldl_append]
    by_cases hpk : p.1 = k
    · refine ⟨p.2, ?_, ?_⟩
      · rw [hfold, if_pos (by simp [hpk])]
      · exact List.mem_append_right _ (by
          rw [← hpk]
          exact List.mem_singleton.mpr rfl)
    · have hk2 : k ∈ es.map Prod.fst := by
        rw [List.map_append] at hk
        rcases List.mem_append.mp hk with h | h
        · exact h
        · rw [List.map_singleton, List.mem_singleton] at h
          exact absurd h.symm hpk
      obtain ⟨v, hget, hmem⟩ := ih k hk2
      refine ⟨v, ?_, List.mem_append_left _ hmem⟩
      rw [hfold, if_neg (by simpa using hpk), hget]

/-- Reflexive text similarity is 1 whenever the text is empty or has at
least one whitespace-split token. -/
theorem text_similarity_self (a : String)
    (h : a = "" ∨ splitTokens [] (a.toList.map Char.toLower) ≠ []) :
    text_similarity a a = 1 := by
  rcases h with h | h
  · subst h
    decide
  · have ha : ¬(a = "") := by
      intro contra
      subst contra
      simp [splitTokens] at h
    unfold text_similarity
    rw [if_neg (by tauto), if_neg (by tauto)]
    dsimp only
    rw [Finset.inter_self, Finset.union_self]
    have hpos : 0 < (pyTokenSet a).card := by
      rcases hl : splitTokens [] (a.toList.map Char.toLower) with _ | ⟨tk, ts⟩
      · exact absurd hl h
      · refine Finset.card_pos.mpr ⟨tk, ?_⟩
        unfold pyTokenSet
        rw [hl]
        simp
    rw [if_neg (by omega), Rat.mkRat_eq_div]
    push_cast
    exact div_self (by positivity)

/-- On equal kv maps whose stored values are never `None`, the kv loop body
never emits. -/
theorem kvItem_self {m : List (String × PyVal)} {n : Bool} {k : String}
    {v : PyVal} (hget : dictGet m k = some v) (hv : v ≠ PyVal.none) :
    kvItem m m n k = Option.none := by
  simp [kvItem, kvGet, hget, hv]

/-- The content differ is reflexively empty given the two validity side
conditions (token-bearing or empty text; no kv block storing `None`). -/
theorem content_diffs_self (T : ExtractionResult) (n : Bool)
    (h1 : docText T = "" ∨
      splitTokens [] ((docText T).toList.map Char.toLower) ≠ [])
    (h2 : ∀ b ∈ T.blocks, b.block_type = "kv" →
      pyTruthy (optStr b.key) = true → kvVal b ≠ PyVal.none) :
    content_diffs T T n = [] := by
  unfold content_diffs
  dsimp only
  rw [text_similarity_self _ h1,
    if_neg (by decide : ¬((1 : Rat) < mkRat 95 100)), if_pos rfl]
  have hkv : ∀ k ∈ ((kvMapOf T).map Prod.fst ++
      (kvMapOf T).map Prod.fst).dedup,
      kvItem (kvMapOf T) (kvMapOf T) n k = Option.none := by
    intro k hk
    have hk1 : k ∈ (kvMapOf T).map Prod.fst := by
      rcases List.mem_append.mp (List.mem_dedup.mp hk) with h | h <;> exact h
    obtain ⟨v, hget, hmem⟩ := dictGet_mem _ _ hk1
    obtain ⟨b, hb, hsome⟩ := List.mem_filterMap.mp hmem
    have hv : v ≠ PyVal.none := by
      by_cases hc : b.block_type = "kv" ∧ pyTruthy (optStr b.key) = true
      · rw [if_pos hc] at hsome
        have hveq : v = kvVal b :=
          (congrArg Prod.snd (Option.some.inj hsome)).symm
        rw [hveq]
        exact h2 b hb hc.1 hc.2
      · rw [if_neg hc] at hsome
        exact Option.noConfusion hsome
    rw [kvItem_self hget hv]
  rw [List.filterMap_eq_nil_iff.mpr hkv]
  rfl

/-- C3 counterexample: a tree with a single whitespace-only content block is
not reflexive — the text has no tokens, so the guarded union gives
similarity 0, a high `blocks.text` diff is emitted and the status is
`partial_match` with `document_level` 0. -/
theorem c3_counterexample :
    (compare (treeText " ") (treeText " ")).status = "partial_match"
    ∧ (compare (treeText " ") (treeText " ")).content_diffs.length = 1
    ∧ (compare (treeText " ") (treeText " ")).similarity_scores =
        some { document_level := 0, metadata_similarity := some 1,
               structure_similarity := some 1,
               content_similarity := some 0 } := by
  refine ⟨by decide, by decide, by decide⟩

/-- C3 amended: `compare(T, T)` yields status `match`, all four diff lists
empty and all similarity scores 1 for every tree whose concatenated block
text is empty or contains at least one whitespace-split token, and whose
kv-typed blocks with a truthy key all carry a truthy value or content. -/
theorem c3_reflexivity (T : ExtractionResult)
    (rules : Option (List (String × Bool))) (t : Rat)
    (dt rid : Option String) (u : String) (now : List Int)
    (h1 : docText T = "" ∨
      splitTokens [] ((docText T).toList.map Char.toLower) ≠ [])
    (h2 : ∀ b ∈ T.blocks, b.block_type = "kv" →
      pyTruthy (optStr b.key) = true → kvVal b ≠ PyVal.none) :
    (compare T T rules t dt rid u now).status = "match"
    ∧ (compare T T rules t dt rid u now).metadata_diffs = []
    ∧ (compare T T rules t dt rid u now).structure_diffs = []
    ∧ (compare T T rules t dt rid u now).content_diffs = []
    ∧ (compare T T rules t dt rid u now).query_answer_diffs = []
    ∧ (compare T T rules t dt rid u now).similarity_scores =
        some { document_level := 1, metadata_similarity := some 1,
               structure_similarity := some 1,
               content_similarity := some 1 } := by
  have hmd := metadata_diffs_self T (resolveNormalize rules)
  have hsd := structure_diffs_self T
  have hcd := content_diffs_self T (resolveNormalize rules) h1 h2
  have hsim := text_similarity_self (docText T) h1
  unfold compare
  simp only [hmd, hsd, hcd, hsim, List.append_nil, List.nil_append]
  refine ⟨?_, ?_, ?_, ?_, ?_, ?_⟩ <;> trivial

/-- C3 witness: reflexivity discharged at a concrete one-block tree. -/
theorem c3_reflexivity_witness :
    (compare (treeText "hello world") (treeText "hello world") Option.none
        (95 / 100) Option.none Option.none "u" []).status = "match"
    ∧ (compare (treeText "hello world") (treeText "hello world") Option.none
        (95 / 100) Option.none Option.none "u" []).metadata_diffs = [] :=
  ⟨(c3_reflexivity (treeText "hello world") Option.none (95 / 100)
      Option.none Option.none "u" [] (by decide) (by decide)).1,
    (c3_reflexivity (treeText "hello world") Option.none (95 / 100)
      Option.none Option.none "u" [] (by decide) (by decide)).2.1⟩

/-- Any emitted metadata diff is added/removed/changed with severity
low, medium or high. -/
theorem metaItem_inv {lf rf : List (String × PyVal)} {n : Bool} {k : String}
    {d : DiffItem} (h : metaItem lf rf n k = some d) :
    d.diff_type ∈ (["added", "removed", "changed"] : List String) ∧
    d.severity ∈ (["low", "medium", "high"] : List String) := by
  rcases hl : dictGet lf k with _ | lv <;>
    rcases hr : dictGet rf k with _ | rv <;>
    simp only [metaItem, hl, hr] at h
  · exact Option.noConfusion h
  · obtain rfl : d = _ := (Option.some.inj h).symm
    exact ⟨by simp, by simp⟩
  · obtain rfl : d = _ := (Option.some.inj h).symm
    exact ⟨by simp, by simp⟩
  · split_ifs at h <;>
      first
        | exact Option.noConfusion h
        | · obtain rfl : d = _ := (Option.some.inj h).symm
            refine ⟨by simp, ?_⟩
            show sevFor k ∈ (["low", "medium", "high"] : List String)
            unfold sevFor
            split_ifs <;> simp

/-- Any emitted kv diff is added/removed/changed with severity medium or
high. -/
theorem kvItem_inv {l r : List (String × PyVal)} {n : Bool} {k : String}
    {d : DiffItem} (h : kvItem l r n k = some d) :
    d.diff_type ∈ (["added", "removed", "changed"] : List String) ∧
    d.severity ∈ (["low", "medium", "high"] : List String) := by
  simp only [kvItem] at h
  split_ifs at h <;>
    first
      | exact Option.noConfusion h
      | · obtain rfl : d = _ := (Option.some.inj h).symm
          exact ⟨by simp, by simp⟩

/-- Every diff item produced by the three differs has kind in
added/removed/changed and severity in low/medium/high. -/
theorem diffs_inv (left right : ExtractionResult) (n : Bool) :
    ∀ d ∈ metadata_diffs left right n ++ structure_diffs left right ++
        content_diffs left right n,
      d.diff_type ∈ (["added", "removed", "changed"] : List String) ∧
      d.severity ∈ (["low", "medium", "high"] : List String) := by
  intro d hd
  rcases List.mem_append.mp hd with hd2 | hcd
  · rcases List.mem_append.mp hd2 with hmd | hsd
    · simp only [metadata_diffs] at hmd
      obtain ⟨k, _, hsome⟩ := List.mem_filterMap.mp hmd
      exact metaItem_inv hsome
    · simp only [structure_diffs, structCheck, List.mem_append] at hsd
      rcases hsd with ((((h | h) | h) | h) | h) <;>
        · split_ifs at h <;>
            first
              | exact absurd h (List.not_mem_nil _)
              | · obtain rfl : d = _ := List.mem_singleton.mp h
                  exact ⟨by simp, by simp⟩
  · simp only [content_diffs, List.mem_append] at hcd
    rcases hcd with (h | h) | h
    · split_ifs at h
      · obtain rfl : d = _ := List.mem_singleton.mp h
        refine ⟨by simp [textDiffItem], ?_⟩
        show (if text_similarity (docText left) (docText right) > mkRat 8 10
          then "medium" else "high") ∈ (["low", "medium", "high"] : List String)
        split_ifs <;> simp
      · exact absurd h (List.not_mem_nil _)
    · obtain ⟨k, _, hsome⟩ := List.mem_filterMap.mp h
      exact kvItem_inv hsome
    · split_ifs at h
      · exact absurd h (List.not_mem_nil _)
      · obtain rfl : d = _ := List.mem_singleton.mp h
        exact ⟨by simp, by simp⟩

/-- With no critical diff the resolver yields match or partial only. -/
theorem compute_status_no_critical {diffs : List DiffItem} {t : Rat}
    (h : ∀ d ∈ diffs, ¬(d.severity = "critical")) :
    compute_status diffs t = "match" ∨
      compute_status diffs t = "partial_match" := by
  rw [compute_status_eq]
  have hc : diffs.countP (fun d => d.severity == "critical") = 0 := by
    rw [List.countP_eq_zero]
    intro d hd
    simpa using h d hd
  rw [hc]
  rw [if_neg (by omega)]
  split_ifs <;> simp

/-- C9: every diff any differ emits has kind added/removed/changed and
severity low/medium/high (never critical, never conflict), hence every
report's status is match or partial_match — never conflict, never
incompatible. -/
theorem c9_invariants (left right : ExtractionResult)
    (rules : Option (List (String × Bool))) (t : Rat)
    (dt rid : Option String) (u : String) (now : List Int) :
    (∀ d ∈ (compare left right rules t dt rid u now).metadata_diffs ++
        (compare left right rules t dt rid u now).structure_diffs ++
        (compare left right rules t dt rid u now).content_diffs,
      d.diff_type ∈ (["added", "removed", "changed"] : List String) ∧
      d.severity ∈ (["low", "medium", "high"] : List String))
    ∧ ((compare left right rules t dt rid u now).status = "match" ∨
        (compare left right rules t dt rid u now).status =
          "partial_match") := by
  have hinv := diffs_inv left right (resolveNormalize rules)
  refine ⟨hinv, ?_⟩
  show compute_status (metadata_diffs left right (resolveNormalize rules) ++
      structure_diffs left right ++
      content_diffs left right (resolveNormalize rules)) t = "match" ∨ _
  exact compute_status_no_critical (fun d hd => by
    have := (hinv d hd).2
    intro hcrit
    rw [hcrit] at this
    simp at this)

/-- C9 witness: applied to the hash scenario's report and its single diff. -/
theorem c9_invariants_witness :
    (hashScenarioDiff.diff_type ∈
        (["added", "removed", "changed"] : List String) ∧
      hashScenarioDiff.severity ∈ (["low", "medium", "high"] : List String))
    ∧ ((compare (treeHash "aaa") (treeHash "bbb") Option.none (95 / 100)
        Option.none Option.none "u" []).status = "match" ∨
      (compare (treeHash "aaa") (treeHash "bbb") Option.none (95 / 100)
        Option.none Option.none "u" []).status = "partial_match") :=
  ⟨(c9_invariants (treeHash "aaa") (treeHash "bbb") Option.none (95 / 100)
      Option.none Option.none "u" []).1 hashScenarioDiff (by decide),
    (c9_invariants (treeHash "aaa") (treeHash "bbb") Option.none (95 / 100)
      Option.none Option.none "u" []).2⟩

/-- Direction flip of a diff kind: added and removed trade places, every
other kind is unchanged. -/
def swapType (t : String) : String :=
  if t = "added" then "removed" else if t = "removed" then "added" else t

/-- Direction flip of a diff item: the kind is flipped and the left/right
values, block references and confidences trade places. -/
def swapDiff (d : DiffItem) : DiffItem :=
  { d with
    diff_type := swapType d.diff_type,
    left_value := d.right_value, right_value := d.left_value,
    left_block_id := d.right_block_id, right_block_id := d.left_block_id,
    left_confidence := d.right_confidence,
    right_confidence := d.left_confidence }

/-- `filterMap` respects pointwise equality of the functions. -/
theorem filterMap_ext {α β : Type} (f g : α → Option β) :
    ∀ l : List α, (∀ a ∈ l, f a = g a) → l.filterMap f = l.filterMap g := by
  intro l
  induction l with
  | nil => intro _; rfl
  | cons a rest ih =>
    intro h
    simp only [List.filterMap_cons, h a (by simp)]
    rw [ih (fun x hx => h x (by simp [hx]))]

/-- The metadata loop body anti-commutes with the direction flip. -/
theorem metaItem_swap (lf rf : List (String × PyVal)) (n : Bool)
    (k : String) :
    metaItem rf lf n k = (metaItem lf rf n k).map swapDiff := by
  rcases hl : dictGet lf k with _ | lv <;>
    rcases hr : dictGet rf k with _ | rv <;>
    simp only [metaItem, hl, hr, Option.map_some, Option.map_none]
  · rfl
  · rfl
  · rfl
  · by_cases h1 : lv = rv
    · subst h1
      simp
    · rw [if_neg h1, if_neg (fun hh => h1 hh.symm)]
      by_cases h2 : (if n then normalizeVal lv else lv) =
          (if n then normalizeVal rv else rv)
      · rw [if_pos h2, if_pos h2.symm]
        rfl
      · rw [if_neg h2, if_neg (fun hh => h2 hh.symm)]
        rfl

/-- The metadata differ anti-commutes with the direction flip, up to the
iteration order of the key set. -/
theorem metadata_diffs_swap (left right : ExtractionResult) (n : Bool) :
    ((metadata_diffs left right n).map swapDiff).Perm
      (metadata_diffs right left n) := by
  simp only [metadata_diffs]
  rw [List.map_filterMap]
  have hfun := filterMap_ext
    (fun k => (metaItem (collect_fields (docDump left.document) "")
      (collect_fields (docDump right.document) "") n k).map swapDiff)
    (metaItem (collect_fields (docDump right.document) "")
      (collect_fields (docDump left.document) "") n)
    ((collect_fields (docDump left.document) "").map Prod.fst ++
      (collect_fields (docDump right.document) "").map Prod.fst).dedup
    (fun k _ => (metaItem_swap _ _ n k).symm)
  rw [hfun]
  exact List.Perm.filterMap _ (List.perm_append_comm.dedup)

/-- A structure check anti-commutes with the direction flip. -/
theorem structCheck_swap (name : String) (lv rv : Int) (sev : String) :
    (structCheck name lv rv sev).map swapDiff = structCheck name rv lv sev := by
  unfold structCheck
  by_cases h : lv = rv
  · rw [if_pos h, if_pos h.symm]
    rfl
  · rw [if_neg h, if_neg (fun hh => h hh.symm)]
    rfl

/-- The structure differ anti-commutes with the direction flip. -/
theorem structure_diffs_swap (left right : ExtractionResult) :
    (structure_diffs left right).map swapDiff = structure_diffs right left := by
  unfold structure_diffs
  simp only [List.map_append, structCheck_swap]
  by_cases h : left.parts.length = right.parts.length
  · rw [if_pos h, if_pos h.symm]
    rfl
  · rw [if_neg h, if_neg (fun hh => h hh.symm)]
    rfl

/-- Text similarity is symmetric. -/
theorem text_similarity_comm (a b : String) :
    text_similarity a b = text_similarity b a := by
  unfold text_similarity
  dsimp only
  rw [Finset.inter_comm (pyTokenSet a) (pyTokenSet b),
    Finset.union_comm (pyTokenSet a) (pyTokenSet b)]
  split_ifs <;> first | rfl | tauto

/-- The kv loop body anti-commutes with the direction flip provided the key
is actually stored (with a non-`None` value) on at least one side: a key
whose lookups are `None` on both sides reads as `added` in both directions. -/
theorem kvItem_swap {l r : List (String × PyVal)} (n : Bool) (k : String)
    (hne : kvGet l k ≠ PyVal.none ∨ kvGet r k ≠ PyVal.none) :
    kvItem r l n k = (kvItem l r n k).map swapDiff := by
  simp only [kvItem]
  by_cases h1 : kvGet l k = PyVal.none
  · have h2 : ¬(kvGet r k = PyVal.none) := by tauto
    rw [if_neg h2, if_pos h1, if_pos h1]
    rfl
  · by_cases h2 : kvGet r k = PyVal.none
    · rw [if_pos h2, if_neg h1, if_pos h2]
      rfl
    · rw [if_neg h2, if_neg h1, if_neg h1, if_neg h2]
      by_cases h3 : (if n then normalizeVal (kvGet l k) else kvGet l k) =
          (if n then normalizeVal (kvGet r k) else kvGet r k)
      · rw [if_pos h3.symm, if_pos h3]
        rfl
      · rw [if_neg (fun hh => h3 hh.symm), if_neg h3]
        rfl

/-- No kv map entry of a tree satisfying the stored-value condition is
`None`. -/
theorem kvMap_no_none (T : ExtractionResult)
    (h : ∀ b ∈ T.blocks, b.block_type = "kv" →
      pyTruthy (optStr b.key) = true → kvVal b ≠ PyVal.none) :
    ∀ p ∈ kvMapOf T, p.2 ≠ PyVal.none := by
  intro p hp
  obtain ⟨b, hb, hsome⟩ := List.mem_filterMap.mp hp
  by_cases hc : b.block_type = "kv" ∧ pyTruthy (optStr b.key) = true
  · rw [if_pos hc] at hsome
    have : p.2 = kvVal b := congrArg Prod.snd (Option.some.inj hsome).symm
    rw [this]
    exact h b hb hc.1 hc.2
  · rw [if_neg hc] at hsome
    exact Option.noConfusion hsome

/-- A key drawn from a kv map of such a tree has a non-`None` lookup. -/
theorem kvGet_ne_none (T : ExtractionResult)
    (h : ∀ p ∈ kvMapOf T, p.2 ≠ PyVal.none) (k : String)
    (hk : k ∈ (kvMapOf T).map Prod.fst) :
    kvGet (kvMapOf T) k ≠ PyVal.none := by
  obtain ⟨v, hget, hmem⟩ := dictGet_mem _ _ hk
  have : kvGet (kvMapOf T) k = v := by
    unfold kvGet
    rw [hget]
    rfl
  rw [this]
  exact h (k, v) hmem

/-- The direction flip fixes the document text diff. -/
theorem swapDiff_textDiffItem (s : Rat) :
    swapDiff (textDiffItem s) = textDiffItem s := rfl

/-- The content differ anti-commutes with the direction flip, for sides
whose kv maps store no `None` value. -/
theorem content_diffs_swap (A B : ExtractionResult) (n : Bool)
    (hA : ∀ p ∈ kvMapOf A, p.2 ≠ PyVal.none)
    (hB : ∀ p ∈ kvMapOf B, p.2 ≠ PyVal.none) :
    ((content_diffs A B n).map swapDiff).Perm (content_diffs B A n) := by
  unfold content_diffs
  dsimp only
  rw [List.map_append, List.map_append,
    text_similarity_comm (docText B) (docText A)]
  refine List.Perm.append (List.Perm.append ?_ ?_) ?_
  · refine List.Perm.of_eq ?_
    by_cases hc :
        text_similarity (docText A) (docText B) < mkRat 95 100
    · rw [if_pos hc]
      rfl
    · rw [if_neg hc]
      rfl
  · rw [List.map_filterMap]
    have hfun := filterMap_ext
      (fun k => (kvItem (kvMapOf A) (kvMapOf B) n k).map swapDiff)
      (kvItem (kvMapOf B) (kvMapOf A) n)
      ((kvMapOf A).map Prod.fst ++ (kvMapOf B).map Prod.fst).dedup
      (fun k hk => by
        have hne : kvGet (kvMapOf A) k ≠ PyVal.none ∨
            kvGet (kvMapOf B) k ≠ PyVal.none := by
          rcases List.mem_append.mp (List.mem_dedup.mp hk) with h | h
          · exact Or.inl (kvGet_ne_none A hA k h)
          · exact Or.inr (kvGet_ne_none B hB k h)
        exact (kvItem_swap n k hne).symm)
    rw [hfun]
    exact List.Perm.filterMap _ (List.perm_append_comm.dedup)
  · refine List.Perm.of_eq ?_
    by_cases hc :
        (A.blocks.filter (fun b => b.block_type == "table")).length =
          (B.blocks.filter (fun b => b.block_type == "table")).length
    · rw [if_pos hc, if_pos hc.symm]
      rfl
    · rw [if_neg hc, if_neg (fun hh => hc hh.symm)]
      rfl

/-- A kv block with `None` value and content, under a truthy key. -/
def kvNoneBlock : Block := { id := "b1", block_type := "kv", key := some "a" }

/-- A tree holding only that degenerate kv block. -/
def treeKvNone : ExtractionResult :=
  { document := { id := "doc-1", technical_metadata := techWith "aaa" },
    blocks := [kvNoneBlock],
    provenance := provA }

/-- C7 counterexample: when a kv block stores `None` (value and content both
absent), both comparison directions emit an `added` diff at `kv.a` and
neither direction emits any `removed` diff, so an added item does not
reappear as removed in the opposite direction. -/
theorem c7_counterexample :
    (∃ d ∈ (compare treeKvNone (treeHash "aaa")).content_diffs,
      d.diff_type = "added" ∧ d.path = "kv.a")
    ∧ (∃ d ∈ (compare (treeHash "aaa") treeKvNone).content_diffs,
      d.diff_type = "added" ∧ d.path = "kv.a")
    ∧ (¬ ∃ d ∈ (compare (treeHash "aaa") treeKvNone).metadata_diffs ++
        (compare (treeHash "aaa") treeKvNone).structure_diffs ++
        (compare (treeHash "aaa") treeKvNone).content_diffs,
      d.diff_type = "removed") := by
  refine ⟨by decide, by decide, by decide⟩

/-- C7 amended: for trees whose kv blocks with a truthy key never store a
`None` value (`b.value or b.content` is truthy or a string), the two
comparison directions produce diff sets of equal size with matching paths,
the direction flip (added ↔ removed, changed left/right values swapped)
carries one diff set onto the other up to the unordered key-set iteration,
and the document text similarity is identical in both directions. -/
theorem c7_antisymmetry (A B : ExtractionResult)
    (rules : Option (List (String × Bool))) (t : Rat)
    (dt rid : Option String) (u : String) (now : List Int)
    (hA : ∀ b ∈ A.blocks, b.block_type = "kv" →
      pyTruthy (optStr b.key) = true → kvVal b ≠ PyVal.none)
    (hB : ∀ b ∈ B.blocks, b.block_type = "kv" →
      pyTruthy (optStr b.key) = true → kvVal b ≠ PyVal.none) :
    ((((compare A B rules t dt rid u now).metadata_diffs ++
        (compare A B rules t dt rid u now).structure_diffs ++
        (compare A B rules t dt rid u now).content_diffs).map
          swapDiff).Perm
      ((compare B A rules t dt rid u now).metadata_diffs ++
        (compare B A rules t dt rid u now).structure_diffs ++
        (compare B A rules t dt rid u now).content_diffs))
    ∧ ((compare A B rules t dt rid u now).metadata_diffs ++
        (compare A B rules t dt rid u now).structure_diffs ++
        (compare A B rules t dt rid u now).content_diffs).length =
      ((compare B A rules t dt rid u now).metadata_diffs ++
        (compare B A rules t dt rid u now).structure_diffs ++
        (compare B A rules t dt rid u now).content_diffs).length
    ∧ (((compare A B rules t dt rid u now).metadata_diffs ++
        (compare A B rules t dt rid u now).structure_diffs ++
        (compare A B rules t dt rid u now).content_diffs).map
          DiffItem.path).Perm
      (((compare B A rules t dt rid u now).metadata_diffs ++
        (compare B A rules t dt rid u now).structure_diffs ++
        (compare B A rules t dt rid u now).content_diffs).map
          DiffItem.path)
    ∧ text_similarity (docText A) (docText B) =
      text_similarity (docText B) (docText A)
    ∧ (compare A B rules t dt rid u now).similarity_scores.map
        SimilarityScores.document_level =
      (compare B A rules t dt rid u now).similarity_scores.map
        SimilarityScores.document_level := by
  have hperm :
      (((compare A B rules t dt rid u now).metadata_diffs ++
        (compare A B rules t dt rid u now).structure_diffs ++
        (compare A B rules t dt rid u now).content_diffs).map
          swapDiff).Perm
      ((compare B A rules t dt rid u now).metadata_diffs ++
        (compare B A rules t dt rid u now).structure_diffs ++
        (compare B A rules t dt rid u now).content_diffs) := by
    show ((metadata_diffs A B (resolveNormalize rules) ++
        structure_diffs A B ++
        content_diffs A B (resolveNormalize rules)).map swapDiff).Perm
      (metadata_diffs B A (resolveNormalize rules) ++ structure_diffs B A ++
        content_diffs B A (resolveNormalize rules))
    rw [List.map_append, List.map_append]
    exact List.Perm.append
      (List.Perm.append (metadata_diffs_swap A B (resolveNormalize rules))
        (List.Perm.of_eq (structure_diffs_swap A B)))
      (content_diffs_swap A B (resolveNormalize rules)
        (kvMap_no_none A hA) (kvMap_no_none B hB))
  refine ⟨hperm, ?_, ?_, text_similarity_comm _ _, ?_⟩
  · have := hperm.length_eq
    simpa [List.length_map] using this
  · have hpaths :
        ((compare A B rules t dt rid u now).metadata_diffs ++
          (compare A B rules t dt rid u now).structure_diffs ++
          (compare A B rules t dt rid u now).content_diffs).map
            DiffItem.path =
        (((compare A B rules t dt rid u now).metadata_diffs ++
          (compare A B rules t dt rid u now).structure_diffs ++
          (compare A B rules t dt rid u now).content_diffs).map
            swapDiff).map DiffItem.path := by
      rw [List.map_map]
      rfl
    rw [hpaths]
    exact hperm.map DiffItem.path
  · show some (text_similarity (docText A) (docText B)) =
      some (text_similarity (docText B) (docText A))
    rw [text_similarity_comm (docText A) (docText B)]

/-- C7 witness: the flip permutation and score symmetry at the hash trees. -/
theorem c7_antisymmetry_witness :
    ((compare (treeHash "aaa") (treeHash "bbb") Option.none (95 / 100)
        Option.none Option.none "u" []).metadata_diffs ++
      (compare (treeHash "aaa") (treeHash "bbb") Option.none (95 / 100)
        Option.none Option.none "u" []).structure_diffs ++
      (compare (treeHash "aaa") (treeHash "bbb") Option.none (95 / 100)
        Option.none Option.none "u" []).content_diffs).length =
    ((compare (treeHash "bbb") (treeHash "aaa") Option.none (95 / 100)
        Option.none Option.none "u" []).metadata_diffs ++
      (compare (treeHash "bbb") (treeHash "aaa") Option.none (95 / 100)
        Option.none Option.none "u" []).structure_diffs ++
      (compare (treeHash "bbb") (treeHash "aaa") Option.none (95 / 100)
        Option.none Option.none "u" []).content_diffs).length :=
  (c7_antisymmetry (treeHash "aaa") (treeHash "bbb") Option.none (95 / 100)
    Option.none Option.none "u" [] (by decide) (by decide)).2.1

/-- C1 counterexample: on the hash-only scenario the engine emits no diff at
path `document.technical_metadata.hash_sha256`, no high-severity diff, and a
different narrative than the claim states. -/
theorem c1_counterexample :
    (¬ ∃ d ∈ (compare (treeHash "aaa") (treeHash "bbb")).metadata_diffs
        ++ (compare (treeHash "aaa") (treeHash "bbb")).structure_diffs
        ++ (compare (treeHash "aaa") (treeHash "bbb")).content_diffs,
      d.path = "document.technical_metadata.hash_sha256")
    ∧ (¬ ∃ d ∈ (compare (treeHash "aaa") (treeHash "bbb")).metadata_diffs
        ++ (compare (treeHash "aaa") (treeHash "bbb")).structure_diffs
        ++ (compare (treeHash "aaa") (treeHash "bbb")).content_diffs,
      d.severity = "high")
    ∧ (compare (treeHash "aaa") (treeHash "bbb")).narrative_summary ≠
      "Changed: document.technical_metadata.hash_sha256" := by
  refine ⟨by decide, by decide, by decide⟩

/-- C1 amended: the hash-only scenario yields exactly one diff item — kind
`changed` at path `technical_metadata` (the flattener keeps the whole
technical-metadata map as one atomic leaf and uses no `document.` prefix)
with severity `medium` — status `partial_match`, and narrative
`"Changed: technical_metadata"`. -/
theorem c1_amended :
    (compare (treeHash "aaa") (treeHash "bbb")).metadata_diffs
        ++ (compare (treeHash "aaa") (treeHash "bbb")).structure_diffs
        ++ (compare (treeHash "aaa") (treeHash "bbb")).content_diffs =
      [{ diff_type := "changed", path := "technical_metadata",
         left_value := techDump (techWith "aaa"),
         right_value := techDump (techWith "bbb"),
         severity := "medium" }]
    ∧ (compare (treeHash "aaa") (treeHash "bbb")).status = "partial_match"
    ∧ (compare (treeHash "aaa") (treeHash "bbb")).narrative_summary =
      "Changed: technical_metadata" := by
  refine ⟨by decide, by decide, by decide⟩

end Rpd
